import Mathlib

deriving instance DecidableEq for Except

/-!
Shallow embedding of the core of the universal-llm-chatbot repository:
the profile store (src/database/user_data_db.py together with
src/models/user_data.py), the admission controller (the rate_limit
decorator in src/bot/telegram_bot.py), the per-user settings dialog
state machine (src/bot/user_state.py and the settings handlers of
src/bot/telegram_bot.py), and the settings timeout scheduling.

Python-level conventions used throughout the embedding:
  - fallible Python code (code that can raise) is embedded as Except;
  - CPython float(...) and int(...) on decimal literals are modelled by
    pyFloat and pyInt over the rationals;
  - the sqlite table is modelled as an association list of rows keyed by
    user id; JSON round-tripping of the message history (json.dumps at
    write, json.loads at read) is the identity on the decoded list and is
    elided;
  - the TTLCache is modelled as an association list (the time-based
    expiry plays no role in the claims settled here: they are about
    population, replacement and explicit invalidation of entries).
-/

namespace Chatbot

/-- Kinds of Python exceptions relevant to the embedded code paths. -/
inductive PyError
  | typeError
  | indexError
deriving DecidableEq, Repr

/-- One conversation turn, a Python dict of the form
\x7b"role": r, "content": c\x7d. -/
structure Msg where
  role : String
  content : String
deriving DecidableEq, Repr

/-- The UserData dataclass of src/models/user_data.py (lines 9-26).
Note: the dataclass has NO user_name field; this fact is load-bearing
below, because other parts of the source pass a user_name keyword to its
constructor. The datetime-valued last_request is abstracted to an
optional timestamp. -/
structure UserData where
  user_id : Int
  message_history : List Msg
  model : String
  system_prompt : String
  temperature : ℚ
  top_p : ℚ
  max_tokens : Int
  language : String
  speaker : String
  is_admin : Bool
  is_whitelisted : Bool
  is_blacklisted : Bool
  last_request : Option Nat
deriving DecidableEq, Repr

/-- The exact field names of the UserData dataclass
(src/models/user_data.py lines 14-26), in declaration order. -/
def UserData.fieldNames : List String :=
  ["user_id", "message_history", "model", "system_prompt", "temperature",
   "top_p", "max_tokens", "language", "speaker", "is_admin",
   "is_whitelisted", "is_blacklisted", "last_request"]

/-- The configured defaults that the UserData dataclass draws from the
loaded configuration (src/models/user_data.py lines 16-22), plus the
list of available models used by the model-setting handlers. -/
structure ModelConfig where
  default_model : String
  default_system_prompt : String
  default_temperature : ℚ
  default_top_p : ℚ
  default_max_tokens : Int
  default_language : String
  default_speaker : String
  available_models : List String
deriving DecidableEq, Repr

/-- UserData(user_id=uid) with every other field at its dataclass
default (src/models/user_data.py lines 14-26). -/
def defaultUserData (cfg : ModelConfig) (uid : Int) : UserData where
  user_id := uid
  message_history := []
  model := cfg.default_model
  system_prompt := cfg.default_system_prompt
  temperature := cfg.default_temperature
  top_p := cfg.default_top_p
  max_tokens := cfg.default_max_tokens
  language := cfg.default_language
  speaker := cfg.default_speaker
  is_admin := false
  is_whitelisted := false
  is_blacklisted := false
  last_request := none

/-- One row of the users table (src/database/user_data_db.py lines
47-64). Unlike the dataclass, the table DOES have a user_name column;
message_history is stored as JSON text, modelled by the decoded list. -/
structure Row where
  user_id : Int
  user_name : Option String
  message_history : List Msg
  model : String
  system_prompt : String
  temperature : ℚ
  top_p : ℚ
  max_tokens : Int
  language : String
  speaker : String
  is_admin : Bool
  is_whitelisted : Bool
  is_blacklisted : Bool
  last_request : Option Nat
deriving DecidableEq, Repr

/-- Association-list lookup keyed by user id. -/
def alookup (l : List (Int × α)) (k : Int) : Option α :=
  (l.find? (fun p => p.1 = k)).map (fun p => p.2)

/-- Association-list insert-or-replace keyed by user id. -/
def ainsert (l : List (Int × α)) (k : Int) (v : α) : List (Int × α) :=
  (k, v) :: l.filter (fun p => ¬ p.1 = k)

/-- Association-list removal keyed by user id (a no-op when absent). -/
def aremove (l : List (Int × α)) (k : Int) : List (Int × α) :=
  l.filter (fun p => ¬ p.1 = k)

/-- State of a UserDataDB instance: the sqlite users table, the TTLCache
contents, and the configured max_message_history_num. -/
structure DBState where
  rows : List (Int × Row)
  cache : List (Int × UserData)
  maxHistory : Nat
deriving DecidableEq, Repr

/-- The Python slice l[-n:]. For n >= 1 it keeps the last n elements
(all of them when n exceeds the length); for n = 0 the slice l[-0:] is
l[0:], i.e. the whole list. -/
def pyTakeLast (n : Nat) (l : List α) : List α :=
  if n = 0 then l else l.drop (l.length - n)

/-- The row written by update_user_data (src/database/user_data_db.py
lines 112-121): INSERT OR REPLACE with the columns of
user_data.to_dict(), which does not include user_name, so that column is
left NULL by the replace. -/
def udToRow (ud : UserData) (hist : List Msg) : Row where
  user_id := ud.user_id
  user_name := none
  message_history := hist
  model := ud.model
  system_prompt := ud.system_prompt
  temperature := ud.temperature
  top_p := ud.top_p
  max_tokens := ud.max_tokens
  language := ud.language
  speaker := ud.speaker
  is_admin := ud.is_admin
  is_whitelisted := ud.is_whitelisted
  is_blacklisted := ud.is_blacklisted
  last_request := ud.last_request

/-- update_user_data (src/database/user_data_db.py lines 105-122): the
durable write stores the history truncated by the slice
[-max_message_history_num:], while the cache is assigned the original
user_data object, whose message_history is not truncated
(line 122: self.cache[user_data.user_id] = user_data). -/
def update_user_data (st : DBState) (ud : UserData) : DBState :=
  let hist := pyTakeLast st.maxHistory ud.message_history
  { st with
    rows := ainsert st.rows ud.user_id (udToRow ud hist)
    cache := ainsert st.cache ud.user_id ud }

/-- invalidate_cache (src/database/user_data_db.py lines 27-30):
deletes the cache entry when present. -/
def invalidate_cache (st : DBState) (uid : Int) : DBState :=
  { st with cache := aremove st.cache uid }

/-- set_admin (src/database/user_data_db.py lines 134-145): targeted
UPDATE of the is_admin column followed by cache invalidation. -/
def set_admin (st : DBState) (uid : Int) (b : Bool) : DBState :=
  invalidate_cache
    { st with rows := st.rows.map (fun p =>
        if p.1 = uid then (p.1, { p.2 with is_admin := b }) else p) } uid

/-- set_whitelist (src/database/user_data_db.py lines 147-158): targeted
UPDATE of the is_whitelisted column followed by cache invalidation. -/
def set_whitelist (st : DBState) (uid : Int) (b : Bool) : DBState :=
  invalidate_cache
    { st with rows := st.rows.map (fun p =>
        if p.1 = uid then (p.1, { p.2 with is_whitelisted := b }) else p) } uid

/-- set_blacklist (src/database/user_data_db.py lines 160-171): targeted
UPDATE of the is_blacklisted column followed by cache invalidation. -/
def set_blacklist (st : DBState) (uid : Int) (b : Bool) : DBState :=
  invalidate_cache
    { st with rows := st.rows.map (fun p =>
        if p.1 = uid then (p.1, { p.2 with is_blacklisted := b }) else p) } uid

/-- The keyword names that get_user_data passes to the UserData
constructor when it rebuilds a profile from a fetched row
(src/database/user_data_db.py lines 85-99). It includes user_name. -/
def get_user_data_kwargs : List String :=
  ["user_id", "user_name", "message_history", "model", "system_prompt",
   "temperature", "top_p", "max_tokens", "language", "speaker",
   "is_admin", "is_whitelisted", "is_blacklisted", "last_request"]

/-- The value get_user_data would build from a row if the constructor
call accepted its keywords (it drops the user_name column, which has no
dataclass field). -/
def rowToUserData (r : Row) : UserData where
  user_id := r.user_id
  message_history := r.message_history
  model := r.model
  system_prompt := r.system_prompt
  temperature := r.temperature
  top_p := r.top_p
  max_tokens := r.max_tokens
  language := r.language
  speaker := r.speaker
  is_admin := r.is_admin
  is_whitelisted := r.is_whitelisted
  is_blacklisted := r.is_blacklisted
  last_request := r.last_request

/-- get_user_data (src/database/user_data_db.py lines 67-103): cache
hit returns the cached object; a miss reads the table; a found row is
passed to the UserData constructor as keyword arguments — since the
keyword user_name is not a field of the dataclass, CPython raises
TypeError there; on success the cache would be repopulated; a true
absence returns None and populates nothing. -/
def get_user_data (st : DBState) (uid : Int) :
    Except PyError (Option UserData × DBState) :=
  match alookup st.cache uid with
  | some ud => .ok (some ud, st)
  | none =>
    match alookup st.rows uid with
    | none => .ok (none, st)
    | some r =>
      if get_user_data_kwargs.all (fun k => UserData.fieldNames.contains k) then
        let ud := rowToUserData r
        .ok (some ud, { st with cache := ainsert st.cache uid ud })
      else
        .error .typeError

/-- The required positional parameters of create_user
(src/database/user_data_db.py line 124): user_id and user_name, neither
with a default. -/
def create_user_params : List String := ["user_id", "user_name"]

/-- CPython positional-argument binding: a call with fewer positional
arguments than required parameters raises TypeError. -/
def pyBindPositional (params : List String) (nargs : Nat) :
    Except PyError Unit :=
  if nargs < params.length then .error .typeError else .ok ()

/-- The body of create_user (src/database/user_data_db.py lines
124-132): it constructs UserData(user_id=..., user_name=...); the
user_name keyword is not a dataclass field, so the construction raises
TypeError before update_user_data can run. -/
def create_user_body (cfg : ModelConfig) (st : DBState) (uid : Int) :
    Except PyError DBState :=
  if create_user_params.all (fun k => UserData.fieldNames.contains k) then
    .ok (update_user_data st (defaultUserData cfg uid))
  else
    .error .typeError

/-- A call of create_user with nargs positional arguments: binding is
checked first, then the body runs. -/
def create_user_call (cfg : ModelConfig) (st : DBState) (nargs : Nat)
    (uid : Int) : Except PyError DBState :=
  match pyBindPositional create_user_params nargs with
  | .error e => .error e
  | .ok _ => create_user_body cfg st uid

/-- The user_data_required decorator (src/bot/telegram_bot.py lines
71-79): get_user_data, and when no profile is found,
self.user_db.create_user(user_id) — a call with ONE positional argument
(line 77). Returns the database state in which the wrapped handler then
runs, or the propagated exception. -/
def user_data_required_step (cfg : ModelConfig) (st : DBState)
    (uid : Int) : Except PyError DBState :=
  match get_user_data st uid with
  | .error e => .error e
  | .ok (some _, st1) => .ok st1
  | .ok (none, st1) => create_user_call cfg st1 1 uid

/-! ### CPython numeric parsing, restricted to plain decimal literals

float(value) and int(value) on the free-text settings inputs. The model
covers optionally-signed decimal literals (digits, at most one dot);
anything else is treated as ValueError (encoded as none). -/

/-- Numeric value of a list of decimal digit characters. -/
def digitsToNat (cs : List Char) : Nat :=
  cs.foldl (fun a c => 10 * a + (c.toNat - 48)) 0

/-- Whether every character is a decimal digit. -/
def allDigits (cs : List Char) : Bool :=
  cs.all (fun c => c.isDigit)

/-- Unsigned part of float(...): digits with an optional single dot,
at least one digit overall. The value is built with mkRat so the
rational is in normal form. -/
def pyFloatCore (cs : List Char) : Option ℚ :=
  match cs.splitOn '.' with
  | [ip] =>
    if !ip.isEmpty && allDigits ip then some (mkRat (digitsToNat ip) 1)
    else none
  | [ip, fp] =>
    if (!ip.isEmpty || !fp.isEmpty) && allDigits ip && allDigits fp then
      some (mkRat (digitsToNat ip * 10 ^ fp.length + digitsToNat fp) (10 ^ fp.length))
    else none
  | _ => none

/-- float(s) on a plain decimal literal, minus sign allowed. -/
def pyFloat (s : String) : Option ℚ :=
  match s.toList with
  | '-' :: rest =>
    match rest.splitOn '.' with
    | [ip] =>
      if !ip.isEmpty && allDigits ip then
        some (mkRat (-(digitsToNat ip : Int)) 1)
      else none
    | [ip, fp] =>
      if (!ip.isEmpty || !fp.isEmpty) && allDigits ip && allDigits fp then
        some (mkRat (-(digitsToNat ip * 10 ^ fp.length + digitsToNat fp : Int)) (10 ^ fp.length))
      else none
    | _ => none
  | cs => pyFloatCore cs

/-- int(s) on a plain decimal integer literal, minus sign allowed;
int("2.5") is a ValueError in CPython and is none here. -/
def pyInt (s : String) : Option Int :=
  match s.toList with
  | '-' :: rest =>
    if !rest.isEmpty && allDigits rest then some (-(digitsToNat rest : Int))
    else none
  | cs =>
    if !cs.isEmpty && allDigits cs then some (digitsToNat cs : Int)
    else none

/-! ### The per-user settings dialog state machine

src/bot/user_state.py: an AsyncMachine with six states, five transitions
from idle, and a wildcard return transition. Firing a trigger that has
no transition from the current state raises MachineError. -/

/-- The states of UserState (src/bot/user_state.py lines 14-21). -/
inductive SessionState
  | idle
  | awaiting_model
  | awaiting_system_prompt
  | awaiting_temperature
  | awaiting_top_p
  | awaiting_max_tokens
deriving DecidableEq, Repr, Fintype

/-- The triggers of UserState (src/bot/user_state.py lines 26-33). -/
inductive Trigger
  | set_model
  | set_system_prompt
  | set_temperature
  | set_top_p
  | set_max_tokens
  | return_to_idle
deriving DecidableEq, Repr, Fintype

/-- The MachineError that the transitions library raises when a trigger
has no valid transition from the current state. -/
inductive MachineError
  | invalidTransition (s : SessionState) (t : Trigger)
deriving DecidableEq, Repr

/-- Firing one trigger of UserState (src/bot/user_state.py lines
26-33): return_to_idle is valid from every state; each set_X trigger is
valid only from idle; anything else raises MachineError. -/
def fire : SessionState → Trigger → Except MachineError SessionState
  | _, .return_to_idle => .ok .idle
  | .idle, .set_model => .ok .awaiting_model
  | .idle, .set_system_prompt => .ok .awaiting_system_prompt
  | .idle, .set_temperature => .ok .awaiting_temperature
  | .idle, .set_top_p => .ok .awaiting_top_p
  | .idle, .set_max_tokens => .ok .awaiting_max_tokens
  | s, t => .error (.invalidTransition s t)

/-! ### The settings update handlers

src/bot/telegram_bot.py lines 529-623: handle_setting_update dispatches
on the dialog state to exactly one update handler and then fires
return_to_idle. -/

/-- The two float-valued parameters served by update_float_setting. -/
inductive FloatParam
  | temperature
  | top_p
deriving DecidableEq, Repr

/-- getattr(user_data, param) for a float parameter. -/
def getFloatParam (ud : UserData) : FloatParam → ℚ
  | .temperature => ud.temperature
  | .top_p => ud.top_p

/-- setattr(user_data, param, v) for a float parameter. -/
def setFloatParam (ud : UserData) : FloatParam → ℚ → UserData
  | .temperature, v => { ud with temperature := v }
  | .top_p, v => { ud with top_p := v }

/-- The parameter name string, as produced by
state_machine.state.split("_", 1)[1]. -/
def FloatParam.name : FloatParam → String
  | .temperature => "temperature"
  | .top_p => "top_p"

/-- The user-visible outcome of one settings update handler. -/
inductive Reply
  | param_set (p : String)
  | param_invalid (p : String)
  | model_set (m : String)
  | model_invalid
  | max_tokens_set (v : Int)
  | max_tokens_invalid
deriving DecidableEq, Repr

/-- Whether a reply reports an accepted (valid) value. -/
def Reply.accepted : Reply → Bool
  | .param_set _ => true
  | .model_set _ => true
  | .max_tokens_set _ => true
  | _ => false

/-- update_model (src/bot/telegram_bot.py lines 552-563): accept the
value only when it is an available model; persist only on change. -/
def update_model (cfg : ModelConfig) (st : DBState) (ud : UserData)
    (value : String) : DBState × UserData × Reply :=
  if cfg.available_models.contains value then
    if value ≠ ud.model then
      let ud1 := { ud with model := value }
      (update_user_data st ud1, ud1, .model_set value)
    else (st, ud, .model_set value)
  else (st, ud, .model_invalid)

/-- update_float_setting (src/bot/telegram_bot.py lines 565-593):
float(value); accepted iff 0 <= value <= 1; persisted only on change;
a parse failure or out-of-range value reports PARAM_INVALID_VALUE and
leaves the profile untouched. -/
def update_float_setting (st : DBState) (ud : UserData)
    (param : FloatParam) (value : String) : DBState × UserData × Reply :=
  match pyFloat value with
  | none => (st, ud, .param_invalid param.name)
  | some v =>
    if 0 ≤ v ∧ v ≤ 1 then
      if v ≠ getFloatParam ud param then
        let ud1 := setFloatParam ud param v
        (update_user_data st ud1, ud1, .param_set param.name)
      else (st, ud, .param_set param.name)
    else (st, ud, .param_invalid param.name)

/-- update_max_tokens (src/bot/telegram_bot.py lines 595-610):
int(value); accepted iff value > 0; persisted only on change. -/
def update_max_tokens (st : DBState) (ud : UserData) (value : String) :
    DBState × UserData × Reply :=
  match pyInt value with
  | none => (st, ud, .max_tokens_invalid)
  | some v =>
    if 0 < v then
      if v ≠ ud.max_tokens then
        let ud1 := { ud with max_tokens := v }
        (update_user_data st ud1, ud1, .max_tokens_set v)
      else (st, ud, .max_tokens_set v)
    else (st, ud, .max_tokens_invalid)

/-- update_setting (src/bot/telegram_bot.py lines 612-623), reached for
the system_prompt parameter: setattr without validation, persisted only
on change. -/
def update_setting (st : DBState) (ud : UserData) (value : String) :
    DBState × UserData × Reply :=
  if value ≠ ud.system_prompt then
    let ud1 := { ud with system_prompt := value }
    (update_user_data st ud1, ud1, .param_set ("system_prompt"))
  else (st, ud, .param_set ("system_prompt"))

/-- handle_setting_update (src/bot/telegram_bot.py lines 529-550):
dispatch on the dialog state to exactly one update handler (the
attempted list records which), then fire return_to_idle, whose wildcard
transition always lands in idle (lemma fire_return_to_idle below). In
the unreachable idle case the parameter name computation
state.split("_", 1)[1] raises IndexError. -/
def handle_setting_update (cfg : ModelConfig) (st : DBState)
    (s : SessionState) (ud : UserData) (value : String) :
    Except PyError (DBState × UserData × Reply × List String × SessionState) :=
  match s with
  | .awaiting_model =>
    let r := update_model cfg st ud value
    .ok (r.1, r.2.1, r.2.2, ["model"], .idle)
  | .awaiting_temperature =>
    let r := update_float_setting st ud .temperature value
    .ok (r.1, r.2.1, r.2.2, ["temperature"], .idle)
  | .awaiting_top_p =>
    let r := update_float_setting st ud .top_p value
    .ok (r.1, r.2.1, r.2.2, ["top_p"], .idle)
  | .awaiting_max_tokens =>
    let r := update_max_tokens st ud value
    .ok (r.1, r.2.1, r.2.2, ["max_tokens"], .idle)
  | .awaiting_system_prompt =>
    let r := update_setting st ud value
    .ok (r.1, r.2.1, r.2.2, ["system_prompt"], .idle)
  | .idle => .error .indexError

/-! ### The admission controller

The rate_limit decorator (src/bot/telegram_bot.py lines 32-49) over
aiolimiter.AsyncLimiter instances. A limiter at one instant is its
capacity and the number of currently available permits; has_capacity(1)
is a pure check, entering the async-with block consumes one permit (and
would suspend the caller if none were available at that point). The
wrapper also emits the sequence of admission events it performs, so that
ordering and atomicity statements can be made about it. -/

/-- An AsyncLimiter at one instant: capacity and available permits. -/
structure Limiter where
  capacity : Nat
  available : Nat
deriving DecidableEq, Repr

/-- has_capacity(n): whether n permits fit right now. -/
def Limiter.hasCapacity (l : Limiter) (n : Nat) : Bool :=
  n ≤ l.available

/-- Entering the async-with block: consume n permits. -/
def Limiter.acquire (l : Limiter) (n : Nat) : Limiter :=
  { l with available := l.available - n }

/-- The events the admission path can perform, in order of emission. -/
inductive Ev
  | checkGlobal
  | checkUser
  | acquireGlobal
  | acquireUser
  | replyNoGlobalCapacity
  | replyNoUserCapacity
  | handleDialog
  | scheduleJob
  | replyTyping
  | callInner
deriving DecidableEq, Repr

/-- The limiter-related state of the TelegramBot instance: the global
limiter, the per-user limiter map, and the configured per-user capacity
used when a limiter is created lazily (src/bot/telegram_bot.py lines
99-105). -/
structure BotRL where
  global_limiter : Limiter
  user_limiters : List (Int × Limiter)
  user_max_requests : Nat
deriving DecidableEq, Repr

/-- get_user_limiter (src/bot/telegram_bot.py lines 114-120): return
the existing limiter for the user, or create a fresh full one and store
it. -/
def get_user_limiter (st : BotRL) (uid : Int) : Limiter × BotRL :=
  match alookup st.user_limiters uid with
  | some l => (l, st)
  | none =>
    let l : Limiter := ⟨st.user_max_requests, st.user_max_requests⟩
    (l, { st with user_limiters := ainsert st.user_limiters uid l })

/-- Store back a mutated per-user limiter. -/
def set_user_limiter (st : BotRL) (uid : Int) (l : Limiter) : BotRL :=
  { st with user_limiters := ainsert st.user_limiters uid l }

/-- The rate_limit wrapper (src/bot/telegram_bot.py lines 32-49):
check the global limiter, reply and stop if it has no capacity; only
then fetch (lazily creating) the per-user limiter and check it, reply
and stop on no capacity; otherwise enter both async-with blocks
(consuming one permit from each) and run the wrapped handler, which may
itself touch the limiter state and emits its own events. The Bool
records whether the wrapped handler ran (the request was admitted). -/
def rate_limit (body : BotRL → BotRL × List Ev) (st : BotRL) (uid : Int) :
    BotRL × List Ev × Bool :=
  if ¬ st.global_limiter.hasCapacity 1 then
    (st, [Ev.checkGlobal, Ev.replyNoGlobalCapacity], false)
  else
    let p := get_user_limiter st uid
    if ¬ p.1.hasCapacity 1 then
      (p.2, [Ev.checkGlobal, Ev.checkUser, Ev.replyNoUserCapacity], false)
    else
      let st2 := { p.2 with global_limiter := p.2.global_limiter.acquire 1 }
      let st3 := set_user_limiter st2 uid (p.1.acquire 1)
      let r := body st3
      (r.1, [Ev.checkGlobal, Ev.checkUser, Ev.acquireGlobal, Ev.acquireUser] ++ r.2, true)

/-- A wrapped handler that touches no limiter state, used to observe the
wrapper itself. -/
def inertBody : BotRL → BotRL × List Ev :=
  fun st => (st, [Ev.callInner])

/-- The body of handle_message (src/bot/telegram_bot.py lines 386-413):
it opens async-with self.global_limiter AGAIN (line 391), consuming a
second global permit, and then either consumes the dialog input or
schedules the processing job and sends the typing action. -/
def handle_message_body (dialogActive : Bool) (st : BotRL) :
    BotRL × List Ev :=
  let st1 := { st with global_limiter := st.global_limiter.acquire 1 }
  if dialogActive then
    (st1, [Ev.acquireGlobal, Ev.handleDialog])
  else
    (st1, [Ev.acquireGlobal, Ev.scheduleJob, Ev.replyTyping])

/-- handle_message as it is actually installed: the rate_limit wrapper
around its body (decorator at src/bot/telegram_bot.py line 385). -/
def handle_message_wrapped (dialogActive : Bool) (st : BotRL)
    (uid : Int) : BotRL × List Ev × Bool :=
  rate_limit (handle_message_body dialogActive) st uid

/-- Number of global-limiter acquisitions in an event sequence. -/
def countAcquireGlobal (tr : List Ev) : Nat :=
  tr.countP (fun e => e = Ev.acquireGlobal)

/-- Whether, in an event sequence, every global capacity check is
immediately followed by the global permit consumption — the trace-level
reading of "check-and-consume is a single atomic step" for the global
scope. -/
def checkConsumeAdjacent (tr : List Ev) : Bool :=
  (List.range tr.length).all (fun i =>
    !(tr.get? i = some Ev.checkGlobal) || (tr.get? (i + 1) = some Ev.acquireGlobal))

/-! ### The settings-dialog timeout

Pressing a settings button fires a dialog transition and schedules
reset_state with a fixed 300-unit delay (src/bot/telegram_bot.py line
304); nothing in the source keeps a handle to the scheduled job or
cancels it. reset_state (lines 377-381) unconditionally pops the
session state. This model projects the system onto the session-state
and timer aspects: the environment is the stored user_state entry (the
machine state, when the key is present) and the multiset of pending
reset_state fire times. -/

/-- The session-state environment of one user: the optional user_state
entry of context.user_data, and the fire times of the pending
reset_state jobs. -/
structure SessEnv where
  user_state : Option SessionState
  jobs : List Nat
deriving DecidableEq, Repr

/-- The observable events that drive the session-state environment. -/
inductive BotEvent
  /-- A settings button press handled by the else-branch of button
  (src/bot/telegram_bot.py lines 288-304) at the given time: create the
  UserState on first use, fire the trigger, and on success schedule
  reset_state at now + 300. A MachineError leaves the environment as it
  was (the exception propagates before run_once is reached). -/
  | pressSet (t : Trigger) (now : Nat)
  /-- The back button (lines 267-270): pops the user_state key; the
  pending jobs are untouched. -/
  | pressBack
  /-- A free-text message (lines 386-413): while the dialog state is
  non-idle it is consumed by handle_setting_update, which ends with
  return_to_idle — the key stays, the machine state becomes idle, and
  the pending jobs are untouched; otherwise the session state is not
  involved. -/
  | textInput (now : Nat)
  /-- The job queue running reset_state at one of the scheduled times
  (lines 377-381): the user_state key is popped unconditionally. -/
  | fireTimer (t : Nat)
deriving DecidableEq, Repr

/-- One step of the session-state environment. -/
def stepEvent (env : SessEnv) (e : BotEvent) : SessEnv :=
  match e with
  | .pressSet t now =>
    let s := env.user_state.getD SessionState.idle
    match fire s t with
    | .ok s1 => { user_state := some s1, jobs := env.jobs ++ [now + 300] }
    | .error _ => env
  | .pressBack => { env with user_state := none }
  | .textInput _ =>
    match env.user_state with
    | some s =>
      if s ≠ SessionState.idle then { env with user_state := some SessionState.idle }
      else env
    | none => env
  | .fireTimer t => { user_state := none, jobs := env.jobs.erase t }

/-- Run a sequence of events from the empty environment. -/
def runEvents (es : List BotEvent) : SessEnv :=
  es.foldl stepEvent ⟨none, []⟩

/-! ### Concrete fixtures used by the theorems below -/

/-- A concrete configuration. -/
def cfg0 : ModelConfig where
  default_model := "gpt"
  default_system_prompt := "sys"
  default_temperature := mkRat 7 10
  default_top_p := mkRat 9 10
  default_max_tokens := 1024
  default_language := "en"
  default_speaker := "alice"
  available_models := ["gpt", "llama"]

/-- A concrete profile for user 1 with the cfg0 defaults. -/
def ud0 : UserData := defaultUserData cfg0 1

/-- An empty database state with max_message_history_num = 10. -/
def db0 : DBState where
  rows := []
  cache := []
  maxHistory := 10

/-- Three concrete conversation turns. -/
def msgA : Msg := ⟨"user", "a"⟩

def msgB : Msg := ⟨"assistant", "b"⟩

def msgC : Msg := ⟨"user", "c"⟩

/-- User 1 with a three-entry message history. -/
def udH : UserData := { ud0 with message_history := [msgA, msgB, msgC] }

/-- A database state whose configured history bound is 2. -/
def db2 : DBState where
  rows := []
  cache := []
  maxHistory := 2

/-- A durable row for user 1 (not whitelisted), with a stored
user_name. -/
def row8 : Row := { udToRow ud0 [] with user_name := some ("bob") }

/-- A database state where user 1 exists durably and is cached. -/
def db8 : DBState where
  rows := [(1, row8)]
  cache := [(1, rowToUserData row8)]
  maxHistory := 10

/-- Limiter state with free capacity everywhere. -/
def rl0 : BotRL where
  global_limiter := ⟨2, 2⟩
  user_limiters := []
  user_max_requests := 3

/-- Limiter state whose global limiter is exhausted. -/
def rl_noglobal : BotRL where
  global_limiter := ⟨2, 0⟩
  user_limiters := []
  user_max_requests := 3

/-- Limiter state where user 1 has an exhausted limiter but the global
limiter has capacity. -/
def rl_nouser : BotRL where
  global_limiter := ⟨2, 2⟩
  user_limiters := [(1, ⟨3, 0⟩)]
  user_max_requests := 3

/-- Limiter state with ample global capacity, for the double-acquire
observation. -/
def rl10 : BotRL where
  global_limiter := ⟨5, 5⟩
  user_limiters := []
  user_max_requests := 3

/-- The event sequence of the timeout counterexample: user enters the
temperature dialog at time 0 (timeout scheduled for 300), completes it
at time 10, starts a top_p dialog at time 20 (its own timeout scheduled
for 320), and the first — never cancelled — timeout fires at 300. -/
def scenarioC4 : List BotEvent :=
  [.pressSet .set_temperature 0, .textInput 10, .pressSet .set_top_p 20,
   .fireTimer 300]

/-! ### Claims -/

/-- C1 (code_bug): the claim says a missing profile triggers creation of
a default profile and is not reported as an error. In the source,
user_data_required calls self.user_db.create_user(user_id) with a single
positional argument (src/bot/telegram_bot.py line 77), while create_user
requires both user_id and user_name (src/database/user_data_db.py line
124); CPython therefore raises TypeError, which propagates to the
caller, and no profile is created. This theorem evaluates the embedded
path at the failing input: user 1 with no profile anywhere. -/
theorem claim_C1_default_profile_creation_raises :
    user_data_required_step cfg0 db0 1 = .error .typeError := by decide

/-- C2 counterexample: after update_user_data on a three-entry history
with a configured bound of 2, the cache holds the untruncated history
[msgA, msgB, msgC] while the durable row holds the truncated
[msgB, msgC]; cache and durable state are not equal, refuting the claim
that the cache holds exactly the truncated persisted value. -/
theorem claim_C2_counterexample :
    (alookup (update_user_data db2 udH).cache 1).map
        (fun u => u.message_history) = some [msgA, msgB, msgC]
  ∧ (alookup (update_user_data db2 udH).rows 1).map
        (fun r => r.message_history) = some [msgB, msgC]
  ∧ ([msgA, msgB, msgC] : List Msg) ≠ [msgB, msgC] := by decide

/-- C2 (corrected): update truncates the conversation memory with the
Python slice [-N:] in the durable write only; the cache entry is
replaced with the original, untruncated profile object, so after an
update the durable row holds the truncated history while the cache
holds the full one (they agree only when no truncation occurred). -/
theorem claim_C2_amended (st : DBState) (ud : UserData) :
    alookup (update_user_data st ud).rows ud.user_id =
      some (udToRow ud (pyTakeLast st.maxHistory ud.message_history))
  ∧ alookup (update_user_data st ud).cache ud.user_id = some ud := by
  constructor <;> simp [update_user_data, alookup, ainsert]

/-- C7 (confirmed): the validation boundaries. For temperature and
top_p the inputs -0.01, 0, 0.5, 1, 1.01 classify as invalid, valid,
valid, valid, invalid (acceptance is exactly the closed interval
[0, 1]); for max_tokens the inputs 0, -5, 100 classify as invalid,
invalid, valid (acceptance is exactly positivity). -/
theorem claim_C7_validation_boundaries :
    (update_float_setting db0 ud0 .temperature ("-0.01")).2.2.accepted = false
  ∧ (update_float_setting db0 ud0 .temperature ("0")).2.2.accepted = true
  ∧ (update_float_setting db0 ud0 .temperature ("0.5")).2.2.accepted = true
  ∧ (update_float_setting db0 ud0 .temperature ("1")).2.2.accepted = true
  ∧ (update_float_setting db0 ud0 .temperature ("1.01")).2.2.accepted = false
  ∧ (update_float_setting db0 ud0 .top_p ("-0.01")).2.2.accepted = false
  ∧ (update_float_setting db0 ud0 .top_p ("0")).2.2.accepted = true
  ∧ (update_float_setting db0 ud0 .top_p ("0.5")).2.2.accepted = true
  ∧ (update_float_setting db0 ud0 .top_p ("1")).2.2.accepted = true
  ∧ (update_float_setting db0 ud0 .top_p ("1.01")).2.2.accepted = false
  ∧ (update_max_tokens db0 ud0 ("0")).2.2.accepted = false
  ∧ (update_max_tokens db0 ud0 ("-5")).2.2.accepted = false
  ∧ (update_max_tokens db0 ud0 ("100")).2.2.accepted = true := by decide

/-- C8 (code_bug): the claim says a trust-flag change durably updates
the one field and invalidates the cache entry, so that an immediately
following get reads storage and returns the profile with the new flag.
The first two parts hold in the source, but the following get cannot
return: get_user_data rebuilds the profile by passing the row to the
UserData constructor with a user_name keyword
(src/database/user_data_db.py line 87) that the dataclass does not
define (src/models/user_data.py lines 14-26), so CPython raises
TypeError. Evaluated at the failing input: user 1 with a durable row,
set_whitelist(1, true), then get_user_data(1). -/
theorem claim_C8_trust_flag_get_raises :
    alookup (set_whitelist db8 1 true).cache 1 = none
  ∧ (alookup (set_whitelist db8 1 true).rows 1).map
      (fun r => r.is_whitelisted) = some true
  ∧ get_user_data (set_whitelist db8 1 true) 1 = .error .typeError := by
  decide

/-- C4 counterexample: in the concrete scenario the user enters the
temperature dialog at time 0, completes it at time 10 — before its
300-unit delay elapses — and starts a fresh top_p dialog at time 20.
The claim says the preempted timeout does not later fire against the
session state, which would leave the top_p dialog (deadline 320) intact
at time 300; instead the never-cancelled first timeout fires at 300 and
clears the session state. -/
theorem claim_C4_counterexample :
    (runEvents scenarioC4).user_state ≠ some SessionState.awaiting_top_p
  ∧ (runEvents scenarioC4).user_state = none
  ∧ (runEvents scenarioC4).jobs = [320] := by decide

/-- C4 (corrected): no completion of the dialog cancels the scheduled
timeout: consuming a dialog input (which ends with return_to_idle) and
the explicit back button both leave the pending reset jobs untouched,
and a scheduled reset always fires at its deadline, unconditionally
clearing whatever session state exists at that moment — including a
dialog started after the one that scheduled it. -/
theorem claim_C4_amended :
    (∀ env now, (stepEvent env (.textInput now)).jobs = env.jobs)
  ∧ (∀ env, (stepEvent env .pressBack).jobs = env.jobs)
  ∧ (∀ env t, (stepEvent env (.fireTimer t)).user_state = none)
  ∧ (∀ env t, (stepEvent env (.fireTimer t)).jobs = env.jobs.erase t) := by
  refine ⟨fun env now => ?_, fun env => rfl, fun env t => rfl, fun env t => rfl⟩
  cases h : env.user_state <;> simp [stepEvent, h]
  split <;> rfl

/-- The wildcard return transition always lands in idle, from every
state: the reason handle_setting_update ends in idle unconditionally. -/
theorem fire_return_to_idle (s : SessionState) :
    fire s .return_to_idle = .ok .idle := by
  cases s <;> rfl

/-- Fetching (and possibly lazily creating) a per-user limiter never
touches the global limiter or the configured per-user capacity. -/
theorem get_user_limiter_preserves (st : BotRL) (uid : Int) :
    (get_user_limiter st uid).2.global_limiter = st.global_limiter
  ∧ (get_user_limiter st uid).2.user_max_requests = st.user_max_requests := by
  unfold get_user_limiter
  cases alookup st.user_limiters uid <;> simp

/-- C3 counterexample: at a state with free capacity everywhere, the
admission trace of the wrapper is
[checkGlobal, checkUser, acquireGlobal, acquireUser, callInner]: the
global capacity check is not immediately followed by the global permit
consumption (the user-scope check stands between them), so the
check-and-consume is not a single atomic step as the claim states. -/
theorem claim_C3_counterexample :
    (rate_limit inertBody rl0 1).2.1 =
      [Ev.checkGlobal, Ev.checkUser, Ev.acquireGlobal, Ev.acquireUser, Ev.callInner]
  ∧ checkConsumeAdjacent (rate_limit inertBody rl0 1).2.1 = false := by decide

/-- C3 (corrected): the admission path succeeds exactly when the checked
scope has a permit available, consumes one permit from each scope on
success, and on exhaustion reports a capacity-exceeded reply without
consuming anything — but the check and the consumption are separate
steps, not one atomic check-and-consume: other admission events stand
between the global check and the global acquire. -/
theorem claim_C3_amended (st : BotRL) (uid : Int) :
    (st.global_limiter.hasCapacity 1 = false →
      rate_limit inertBody st uid =
        (st, [Ev.checkGlobal, Ev.replyNoGlobalCapacity], false))
  ∧ (st.global_limiter.hasCapacity 1 = true →
      (get_user_limiter st uid).1.hasCapacity 1 = false →
      rate_limit inertBody st uid =
        ((get_user_limiter st uid).2,
         [Ev.checkGlobal, Ev.checkUser, Ev.replyNoUserCapacity], false))
  ∧ (st.global_limiter.hasCapacity 1 = true →
      (get_user_limiter st uid).1.hasCapacity 1 = true →
      (rate_limit inertBody st uid).1.global_limiter.available + 1 =
        st.global_limiter.available
      ∧ alookup (rate_limit inertBody st uid).1.user_limiters uid =
          some ((get_user_limiter st uid).1.acquire 1)
      ∧ (rate_limit inertBody st uid).2.2 = true
      ∧ checkConsumeAdjacent (rate_limit inertBody st uid).2.1 = false) := by
  refine ⟨fun hg => ?_, fun hg hu => ?_, fun hg hu => ?_⟩
  · simp [rate_limit, hg]
  · simp [rate_limit, hg, hu]
  · have hgl := (get_user_limiter_preserves st uid).1
    have havail : 1 ≤ st.global_limiter.available := by
      simpa [Limiter.hasCapacity] using hg
    refine ⟨?_, ?_, ?_, ?_⟩
    · simp [rate_limit, hg, hu, inertBody, set_user_limiter, Limiter.acquire, hgl]
      omega
    · simp [rate_limit, hg, hu, inertBody, set_user_limiter, alookup, ainsert]
    · simp [rate_limit, hg, hu]
    · have htr : (rate_limit inertBody st uid).2.1 =
          [Ev.checkGlobal, Ev.checkUser, Ev.acquireGlobal, Ev.acquireUser,
           Ev.callInner] := by
        simp [rate_limit, hg, hu, inertBody]
      rw [htr]
      decide

/-- Witness for the corrected C3, covering all three branches: the
global-exhausted state, the user-exhausted state, and the fully free
state. -/
theorem claim_C3_amended_witness :
    rate_limit inertBody rl_noglobal 1 =
      (rl_noglobal, [Ev.checkGlobal, Ev.replyNoGlobalCapacity], false)
  ∧ rate_limit inertBody rl_nouser 1 =
      ((get_user_limiter rl_nouser 1).2,
       [Ev.checkGlobal, Ev.checkUser, Ev.replyNoUserCapacity], false)
  ∧ ((rate_limit inertBody rl0 1).1.global_limiter.available + 1 =
        rl0.global_limiter.available
      ∧ alookup (rate_limit inertBody rl0 1).1.user_limiters 1 =
          some ((get_user_limiter rl0 1).1.acquire 1)
      ∧ (rate_limit inertBody rl0 1).2.2 = true
      ∧ checkConsumeAdjacent (rate_limit inertBody rl0 1).2.1 = false) :=
  ⟨(claim_C3_amended rl_noglobal 1).1 (by decide),
   (claim_C3_amended rl_nouser 1).2.1 (by decide) (by decide),
   (claim_C3_amended rl0 1).2.2 (by decide) (by decide)⟩

/-- C5 (confirmed): the wrapped handler runs exactly when the global
check and then the user-scoped check both succeed, and when the global
check fails the whole limiter state is returned untouched (in
particular no per-user limiter is created) and no user-scoped check or
acquisition event occurs. -/
theorem claim_C5_admission_ordering (st : BotRL) (uid : Int)
    (body : BotRL → BotRL × List Ev) :
    (rate_limit body st uid).2.2 =
      (st.global_limiter.hasCapacity 1 &&
       (get_user_limiter st uid).1.hasCapacity 1)
  ∧ (st.global_limiter.hasCapacity 1 = false →
      (rate_limit body st uid).1 = st
      ∧ Ev.checkUser ∉ (rate_limit body st uid).2.1
      ∧ Ev.acquireUser ∉ (rate_limit body st uid).2.1) := by
  constructor
  · by_cases hg : st.global_limiter.hasCapacity 1
    · by_cases hu : (get_user_limiter st uid).1.hasCapacity 1
      · simp [rate_limit, hg, hu]
      · simp [rate_limit, hg, hu]
    · simp [rate_limit, hg]
  · intro hg
    simp [rate_limit, hg]

/-- Witness for C5: at a state whose global limiter is exhausted, with
user 7 never seen, the handler does not run, the state is untouched,
and no user-scoped event occurs. -/
theorem claim_C5_witness :
    ((rate_limit inertBody rl_noglobal 7).2.2 =
      (rl_noglobal.global_limiter.hasCapacity 1 &&
       (get_user_limiter rl_noglobal 7).1.hasCapacity 1))
  ∧ ((rate_limit inertBody rl_noglobal 7).1 = rl_noglobal
      ∧ Ev.checkUser ∉ (rate_limit inertBody rl_noglobal 7).2.1
      ∧ Ev.acquireUser ∉ (rate_limit inertBody rl_noglobal 7).2.1) :=
  ⟨(claim_C5_admission_ordering rl_noglobal 7 inertBody).1,
   (claim_C5_admission_ordering rl_noglobal 7 inertBody).2 (by decide)⟩

/-- C9 (confirmed): the complete transition table of the dialog state
machine — a firing succeeds exactly when it is the universal
return_to_idle transition (landing in idle) or one of the five
parameter-set transitions fired from idle; in particular every
parameter-set trigger fired from a non-idle state is rejected with a
MachineError. -/
theorem claim_C9_transition_table :
    ∀ s t s1, fire s t = Except.ok s1 ↔
      ((t = Trigger.return_to_idle ∧ s1 = SessionState.idle) ∨
       (s = SessionState.idle ∧
         ((t = Trigger.set_model ∧ s1 = SessionState.awaiting_model) ∨
          (t = Trigger.set_system_prompt ∧ s1 = SessionState.awaiting_system_prompt) ∨
          (t = Trigger.set_temperature ∧ s1 = SessionState.awaiting_temperature) ∨
          (t = Trigger.set_top_p ∧ s1 = SessionState.awaiting_top_p) ∨
          (t = Trigger.set_max_tokens ∧ s1 = SessionState.awaiting_max_tokens)))) := by
  decide

/-- C10 (confirmed): a non-dialog message that passes admission causes
two acquisitions of the global limiter — one by the rate_limit wrapper
and a second by the async-with inside the body of handle_message — so
each processed message consumes two global permits, not one. -/
theorem claim_C10_double_global_acquire (st : BotRL) (uid : Int)
    (hg : st.global_limiter.hasCapacity 1 = true)
    (hu : (get_user_limiter st uid).1.hasCapacity 1 = true) :
    countAcquireGlobal (handle_message_wrapped false st uid).2.1 = 2
  ∧ (2 ≤ st.global_limiter.available →
      (handle_message_wrapped false st uid).1.global_limiter.available + 2 =
        st.global_limiter.available) := by
  have hgl := (get_user_limiter_preserves st uid).1
  constructor
  · simp [handle_message_wrapped, rate_limit, hg, hu, handle_message_body,
      countAcquireGlobal]
  · intro h2
    simp [handle_message_wrapped, rate_limit, hg, hu, handle_message_body,
      set_user_limiter, Limiter.acquire, hgl]
    omega

/-- The rejection condition of update_float_setting on a raw input:
float(value) raises ValueError, or the parsed value lies outside the
closed interval [0, 1]. -/
def floatValueRejected (v : String) : Bool :=
  match pyFloat v with
  | none => true
  | some q => !(decide (0 ≤ q) && decide (q ≤ 1))

/-- A rejected input leaves the database state and the profile exactly
as they were and reports PARAM_INVALID_VALUE. -/
theorem update_float_setting_rejected (st : DBState) (ud : UserData)
    (p : FloatParam) (v : String) (hrej : floatValueRejected v = true) :
    update_float_setting st ud p v = (st, ud, .param_invalid p.name) := by
  unfold floatValueRejected at hrej
  unfold update_float_setting
  cases hm : pyFloat v with
  | none => simp
  | some q =>
    rw [hm] at hrej
    have hq : ¬ (0 ≤ q ∧ q ≤ 1) := by
      rintro ⟨h1, h2⟩
      simp [h1, h2] at hrej
    simp [hq]

/-- C6 (confirmed): consuming one free-text input in any non-idle
dialog state attempts exactly one settings update (the attempted list
is a singleton) and always ends with the state machine back in idle;
and when the state awaits a temperature and the value is rejected
(e.g. "2.5"), the invalid value is reported while the database state
and the profile are returned unchanged. -/
theorem claim_C6_dialog_input (cfg : ModelConfig) (st : DBState)
    (s : SessionState) (ud : UserData) (v : String)
    (h : s ≠ SessionState.idle) :
    (∃ st1 ud1 r a, handle_setting_update cfg st s ud v =
        .ok (st1, ud1, r, a, SessionState.idle) ∧ a.length = 1)
  ∧ (s = SessionState.awaiting_temperature → floatValueRejected v = true →
      handle_setting_update cfg st s ud v =
        .ok (st, ud, Reply.param_invalid ("temperature"), ["temperature"],
             SessionState.idle)) := by
  cases s with
  | idle => exact absurd rfl h
  | awaiting_model =>
    exact ⟨⟨_, _, _, _, rfl, rfl⟩, fun heq => absurd heq (by decide)⟩
  | awaiting_system_prompt =>
    exact ⟨⟨_, _, _, _, rfl, rfl⟩, fun heq => absurd heq (by decide)⟩
  | awaiting_top_p =>
    exact ⟨⟨_, _, _, _, rfl, rfl⟩, fun heq => absurd heq (by decide)⟩
  | awaiting_max_tokens =>
    exact ⟨⟨_, _, _, _, rfl, rfl⟩, fun heq => absurd heq (by decide)⟩
  | awaiting_temperature =>
    refine ⟨⟨_, _, _, _, rfl, rfl⟩, fun _ hrej => ?_⟩
    show Except.ok
        ((update_float_setting st ud .temperature v).1,
         (update_float_setting st ud .temperature v).2.1,
         (update_float_setting st ud .temperature v).2.2,
         ["temperature"], SessionState.idle) = _
    rw [update_float_setting_rejected st ud .temperature v hrej]
    rfl

/-- Witness for C6: the end-to-end scenario of the claim — state
awaiting_temperature, input "2.5" — yields exactly one attempted
update, a reported validation failure, an unchanged profile and
database state, and the machine back in idle. -/
theorem claim_C6_witness :
    (∃ st1 ud1 r a,
        handle_setting_update cfg0 db0 SessionState.awaiting_temperature ud0 ("2.5") =
          .ok (st1, ud1, r, a, SessionState.idle) ∧ a.length = 1)
  ∧ handle_setting_update cfg0 db0 SessionState.awaiting_temperature ud0 ("2.5") =
      .ok (db0, ud0, Reply.param_invalid ("temperature"), ["temperature"],
           SessionState.idle) :=
  ⟨(claim_C6_dialog_input cfg0 db0 .awaiting_temperature ud0 ("2.5") (by decide)).1,
   (claim_C6_dialog_input cfg0 db0 .awaiting_temperature ud0 ("2.5") (by decide)).2
     rfl (by decide)⟩

/-- Witness for C10: at a fresh state with five global permits, a
processed non-dialog message for user 1 emits two global acquisitions
and leaves three permits. -/
theorem claim_C10_witness :
    countAcquireGlobal (handle_message_wrapped false rl10 1).2.1 = 2
  ∧ (2 ≤ rl10.global_limiter.available →
      (handle_message_wrapped false rl10 1).1.global_limiter.available + 2 =
        rl10.global_limiter.available) :=
  claim_C10_double_global_acquire rl10 1 (by decide) (by decide)

end Chatbot
